import Mathlib

/-
Verification of the bulk content-deletion pipeline in `pipeline_notas.py`.

The development shallowly embeds the pipeline's pure control logic:
  * `TokenBucket` / `TokenBucket.consume`   (lines 35-54 of the source),
  * `waitForToken`                          (lines 59-62),
  * `makeRequestWithRetry` / `requestLoop`  (lines 64-124),
  * `getCirculations` and its body normalization (lines 176-230),
  * `decirculateStory`, `unpublishStory`, `deleteStoryPermanently`
                                            (lines 232-289),
  * `processStoryForDeletion`               (lines 291-312),
  * `loadRowsFromCsv`                       (lines 142-174),
  * the `--limit` truncation and the final run summary of `__main__`
                                            (lines 315-395).

Effects are made explicit: the network is an oracle mapping attempt
indices to results, wall-clock instants are rational parameters, and the
rate limiter's busy-wait polls are a list of poll instants.  Sleeps,
log lines and the exact sleep durations (backoff value, Retry-After
parsing, jitter) influence only timing and logging in the source, never
which branch is taken; the trace records that a sleep happens, not for
how long.
-/

namespace PipelineNotas

/-! ## JSON values (the parsed `response.json()` bodies) -/

/-- JSON values as produced by `response.json()`: Python lists become
`arr`, dicts become `obj` (association lists in insertion order). -/
inductive Json where
  | str (s : String)
  | num (n : Int)
  | bool (b : Bool)
  | null
  | arr (elems : List Json)
  | obj (fields : List (String × Json))

/-- Python `dict.get`: first binding of the key, `None` when absent
(keys are assumed unique, as for a parsed JSON object). -/
def jlookup (fields : List (String × Json)) (k : String) : Option Json :=
  (fields.find? (fun p => p.1 == k)).map (fun p => p.2)

/-- Python truthiness of a JSON value (`if wid:` / `if data.get(...)`). -/
def jsonTruthy : Json → Bool
  | .str s => s != ""
  | .num n => n != 0
  | .bool b => b
  | .null => false
  | .arr xs => !xs.isEmpty
  | .obj fs => !fs.isEmpty

/-- Truthiness of a `dict.get` result (`None` is falsy). -/
def truthyOpt : Option Json → Bool
  | none => false
  | some v => jsonTruthy v

/-! ## Circulation-body normalization (source lines 195-227) -/

/-- The wrapper keys probed in order at source lines 200-205. -/
def wrapperKeys : List String := ["circulations", "items", "results", "data"]

/-- Source lines 200-205: the first wrapper key whose value is a list. -/
def firstKeyList (fs : List (String × Json)) : Option (List Json) :=
  wrapperKeys.findSome? (fun k =>
    match jlookup fs k with
    | some (.arr xs) => some xs
    | _ => none)

/-- Source lines 212-216: scan the dict values for the first non-empty
list whose first element is a dict. -/
def firstDictList (vals : List Json) : Option (List Json) :=
  vals.findSome? (fun v =>
    match v with
    | .arr (x :: xs) =>
      match x with
      | .obj _ => some (x :: xs)
      | _ => none
    | _ => none)

/-- Source lines 196-216: the `circulations` variable after shape
normalization (`none` models the Python `None`). -/
def normalizeCirculations : Json → Option (List Json)
  | .arr xs => some xs
  | .obj fs =>
    match firstKeyList fs with
    | some xs => some xs
    | none =>
      if truthyOpt (jlookup fs "website_id") then some [Json.obj fs]
      else firstDictList (fs.map (fun p => p.2))
  | _ => none

/-- Source line 218: `if not circulations: return []` — `None` collapses
to the empty list (an empty list already is one). -/
def circulationList (data : Json) : List Json :=
  match normalizeCirculations data with
  | none => []
  | some xs => xs

/-- Source lines 221-227: keep each dict element's truthy `website_id`. -/
def extractWebsiteIds (circs : List Json) : List Json :=
  circs.filterMap (fun c =>
    match c with
    | .obj fs =>
      match jlookup fs "website_id" with
      | some w => if jsonTruthy w then some w else none
      | none => none
    | _ => none)

/-- The list of website ids `get_circulations` computes from a parsed
body. -/
def websiteIdsOf (data : Json) : List Json :=
  extractWebsiteIds (circulationList data)

/-! ## TokenBucket (source lines 35-57) -/

/-- The `TokenBucket` state: `capacity`, `_tokens`, `fill_rate`,
`timestamp`.  Real numbers are modelled as rationals. -/
structure TokenBucket where
  capacity : ℚ
  tokens : ℚ
  fillRate : ℚ
  timestamp : ℚ
deriving DecidableEq, Repr

/-- `TokenBucket.__init__` (lines 36-41): capacity and initial tokens
coincide; `t0` is the construction-time clock reading. -/
def TokenBucket.init (tokens fillRate t0 : ℚ) : TokenBucket :=
  ⟨tokens, tokens, fillRate, t0⟩

/-- Python's builtin two-argument `min`, written so the kernel can
evaluate it on concrete rationals (`ratMin_eq_min` identifies it with
the lattice `min`). -/
def ratMin (a b : ℚ) : ℚ := if a ≤ b then a else b

lemma ratMin_eq_min (a b : ℚ) : ratMin a b = min a b := by
  unfold ratMin
  split_ifs with h
  · exact (min_eq_left h).symm
  · exact (min_eq_right (le_of_not_le h)).symm

/-- `TokenBucket.consume` (lines 43-54) at clock reading `now`:
refill from elapsed time, then deduct `amount` iff enough is available.
Returns the new state and the success flag. -/
def TokenBucket.consume (b : TokenBucket) (now : ℚ) (amount : ℚ) :
    TokenBucket × Bool :=
  let newTokens := ratMin b.capacity (b.tokens + b.fillRate * (now - b.timestamp))
  if amount ≤ newTokens then
    (⟨b.capacity, newTokens - amount, b.fillRate, now⟩, true)
  else
    (⟨b.capacity, newTokens, b.fillRate, now⟩, false)

/-- The reference token-bucket step as the specification words it:
set the stored count to `min(capacity, tokens + fill_rate * elapsed)`,
then deduct the requested amount exactly when the result covers it. -/
def consumeSpec (b : TokenBucket) (now : ℚ) (amount : ℚ) :
    TokenBucket × Bool :=
  let refilled := min b.capacity (b.tokens + b.fillRate * (now - b.timestamp))
  if amount ≤ refilled then
    (⟨b.capacity, refilled - amount, b.fillRate, now⟩, true)
  else
    (⟨b.capacity, refilled, b.fillRate, now⟩, false)

/-- `RATE_LIMITER = TokenBucket(tokens=18, fill_rate=TARGET_RPS)`
(lines 33 and 57), constructed at clock reading `t0`. -/
def rateLimiterInit (t0 : ℚ) : TokenBucket := TokenBucket.init 18 13 t0

/-- The stored token count is a valid bucket level. -/
def bucketInv (b : TokenBucket) : Prop :=
  0 ≤ b.tokens ∧ b.tokens ≤ b.capacity

/-- A list of clock readings that never moves backwards, starting no
earlier than `t0`. -/
def timesOk (t0 : ℚ) : List ℚ → Bool
  | [] => true
  | t :: ts => decide (t0 ≤ t) && timesOk t ts

/-- A sequence of `consume()` calls (each with the default amount 1)
at the given clock readings. -/
def consumeSeq (b : TokenBucket) : List ℚ → TokenBucket
  | [] => b
  | t :: ts => consumeSeq (b.consume t 1).1 ts

/-! ## wait_for_token and make_request_with_retry (lines 59-124) -/

/-- Primitive operations visible in a request trace. -/
inductive Event where
  | consumeFail
  | consumeOk
  | httpRequest
  | sleepEv
deriving DecidableEq, Repr

/-- One network attempt either raises a `requests` exception (message
`m`) or yields a response. -/
structure Response where
  status : Nat
  body : Option Json

/-- Outcome of one `SESSION.request` attempt; `exn` is a
`requests.exceptions.RequestException`, `resp` a response whose
`Retry-After` header (read only to choose a sleep duration) is not
tracked. -/
inductive AttemptResult where
  | exn (m : String)
  | resp (r : Response)

/-- `response.ok` of the `requests` library: status below 400. -/
def Response.isOk (r : Response) : Bool := decide (r.status < 400)

/-- Status in the 5xx band (source line 102). -/
def isServerError (s : Nat) : Bool := decide (500 ≤ s) && decide (s < 600)

/-- Status for which `raise_for_status` raises (4xx or 5xx). -/
def isHttpError (s : Nat) : Bool := decide (400 ≤ s) && decide (s < 600)

/-- The attempt results the loop retries on: any exception, a 429, or a
5xx (source lines 79, 102, 114). -/
def retryable : AttemptResult → Bool
  | .exn _ => true
  | .resp r => r.status == 429 || isServerError r.status

/-- The `last_error` string the loop would record for a retried attempt
(source lines 80, 103, 115). -/
def lastErrorOf : AttemptResult → String
  | .exn m => "Exception: " ++ m
  | .resp r =>
    if r.status == 429 then "HTTP 429 (Rate Limit)"
    else "HTTP " ++ toString r.status ++ " (Server Error)"

/-- The exception message raised after exhausting all retries
(source line 124). -/
def exhaustedMsg (url lastError : String) : String :=
  "Fallaron todos los reintentos para " ++ url ++ ". Último error: " ++ lastError

/-- `max_retries = 8` (source line 67). -/
def maxRetries : Nat := 8

/-- `wait_for_token` (lines 59-62): poll `RATE_LIMITER.consume()` at the
given clock readings until it succeeds.  Returns the bucket after the
successful consume and the trace of polls; `none` means every supplied
poll instant failed (the real loop would still be spinning). -/
def waitForToken (b : TokenBucket) : List ℚ → Option (TokenBucket × List Event)
  | [] => none
  | t :: rest =>
    match b.consume t 1 with
    | (b1, true) => some (b1, [Event.consumeOk])
    | (b1, false) =>
      (waitForToken b1 rest).map (fun z => (z.1, Event.consumeFail :: z.2))

/-- The `while retries < max_retries` loop of `make_request_with_retry`
(lines 71-124), with the recursion measured by the remaining attempts
`fuel = max_retries - retries` and `k` the index of the next attempt.
`oracle k` is what the `k`-th `SESSION.request` does, `sched k` the poll
instants `wait_for_token` gets for attempt `k`.  The result carries the
final bucket, the returned response or raised message, and the event
trace; `none` means the run is stuck inside `wait_for_token`. -/
def requestLoop (url : String) (oracle : Nat → AttemptResult)
    (sched : Nat → List ℚ) :
    Nat → Nat → String → TokenBucket →
    Option (TokenBucket × Except String Response × List Event)
  | 0, _, lastErr, b => some (b, .error (exhaustedMsg url lastErr), [])
  | fuel + 1, k, lastErr, b =>
    match waitForToken b (sched k) with
    | none => none
    | some (b1, admitEvs) =>
      match oracle k with
      | .exn m =>
        (requestLoop url oracle sched fuel (k + 1) ("Exception: " ++ m) b1).map
          (fun z => (z.1, z.2.1,
            admitEvs ++ Event.httpRequest :: Event.sleepEv :: z.2.2))
      | .resp r =>
        if r.status == 429 then
          (requestLoop url oracle sched fuel (k + 1) "HTTP 429 (Rate Limit)" b1).map
            (fun z => (z.1, z.2.1,
              admitEvs ++ Event.httpRequest :: Event.sleepEv :: z.2.2))
        else if isServerError r.status then
          (requestLoop url oracle sched fuel (k + 1)
              ("HTTP " ++ toString r.status ++ " (Server Error)") b1).map
            (fun z => (z.1, z.2.1,
              admitEvs ++ Event.httpRequest :: Event.sleepEv :: z.2.2))
        else
          some (b1, .ok r, admitEvs ++ [Event.httpRequest])

/-- `make_request_with_retry` (lines 64-124): 8 attempts, initial
`last_error = "Unknown"`. -/
def makeRequestWithRetry (url : String) (oracle : Nat → AttemptResult)
    (sched : Nat → List ℚ) (b : TokenBucket) :
    Option (TokenBucket × Except String Response × List Event) :=
  requestLoop url oracle sched maxRetries 0 "Unknown" b

/-- The same retry loop with the rate-limiter admission factored out:
only the returned value and the attempt count (second component).
`requestLoop_refines` ties it to `requestLoop`. -/
def requestLoopPure (url : String) (oracle : Nat → AttemptResult) :
    Nat → Nat → String → Except String Response × Nat
  | 0, _, lastErr => (.error (exhaustedMsg url lastErr), 0)
  | fuel + 1, k, lastErr =>
    match oracle k with
    | .exn m =>
      let p := requestLoopPure url oracle fuel (k + 1) ("Exception: " ++ m)
      (p.1, p.2 + 1)
    | .resp r =>
      if r.status == 429 then
        let p := requestLoopPure url oracle fuel (k + 1) "HTTP 429 (Rate Limit)"
        (p.1, p.2 + 1)
      else if isServerError r.status then
        let p := requestLoopPure url oracle fuel (k + 1)
          ("HTTP " ++ toString r.status ++ " (Server Error)")
        (p.1, p.2 + 1)
      else
        (.ok r, 1)

/-- `make_request_with_retry` modulo admission: outcome and number of
attempts actually made. -/
def makeRequestPure (url : String) (oracle : Nat → AttemptResult) :
    Except String Response × Nat :=
  requestLoopPure url oracle maxRetries 0 "Unknown"

/-! ## The per-identifier pipeline (source lines 176-312)

The stage functions below are stated over `makeRequestPure`, the
admission-free projection of `makeRequestWithRetry`; the lemma
`requestLoop_refines` proves that whenever the full loop terminates its
returned value and attempt count coincide with the projection's. -/

/-- Base of the Draft API; the source interpolates the `ORG_ID`
environment variable, which only ever reaches log and exception
messages. -/
def draftApiBase : String := "https://api.<ORG_ID>.arcpublishing.com/draft/v1"

def circulationUrl (sid : String) : String :=
  draftApiBase ++ "/story/" ++ sid ++ "/circulation"

def circulationDeleteUrl (sid wid : String) : String :=
  draftApiBase ++ "/story/" ++ sid ++ "/circulation/" ++ wid

def publishedRevisionUrl (sid : String) : String :=
  draftApiBase ++ "/story/" ++ sid ++ "/revision/published"

def storyUrl (sid : String) : String :=
  draftApiBase ++ "/story/" ++ sid

/-- `get_circulations` (lines 176-230).  Result: the website-id list
(`none` models the Python `None` failure), plus the number of HTTP
attempts the single `make_request_with_retry` call made.  A raised
retry-exhaustion error, a non-404 status in the `raise_for_status`
band, or an unparseable body all land in the `except` branches and
yield `none`; a 404 short-circuits to the empty list. -/
def getCirculations (sid : String) (oracle : Nat → AttemptResult) :
    Option (List Json) × Nat :=
  match makeRequestPure (circulationUrl sid) oracle with
  | (.error _, n) => (none, n)
  | (.ok r, n) =>
    if r.status == 404 then (some [], n)
    else if isHttpError r.status then (none, n)
    else
      match r.body with
      | none => (none, n)
      | some data => (some (websiteIdsOf data), n)

/-- One website's delete-circulation call inside `decirculate_story`
(lines 239-251): success is a returned 404 or any `ok` status; a raised
exception or any other status marks failure. -/
def decircOne (url : String) (oracle : Nat → AttemptResult) : Bool :=
  match makeRequestPure url oracle with
  | (.error _, _) => false
  | (.ok r, _) => r.status == 404 || r.isOk

/-- `decirculate_story` (lines 232-253): empty list is an immediate
success; otherwise one delete call per website id — the loop never
breaks early, so the call count is the full list length — and the stage
succeeds iff every call did. -/
def decirculateStory (sid : String) (oracle : Nat → Nat → AttemptResult)
    (wids : List Json) : Bool × Nat :=
  ((List.range wids.length).all (fun i =>
    decircOne (circulationDeleteUrl sid (toString i)) (oracle i)), wids.length)

/-- `unpublish_story` (lines 255-271): 404 or `ok` is success, anything
else (including a raised retry exhaustion) is failure.  Also returns
the attempt count of its single call. -/
def unpublishStory (sid : String) (oracle : Nat → AttemptResult) : Bool × Nat :=
  match makeRequestPure (publishedRevisionUrl sid) oracle with
  | (.error _, n) => (false, n)
  | (.ok r, n) => (r.status == 404 || r.isOk, n)

/-- `delete_story_permanently` (lines 273-289): same success criterion
as `unpublish_story`. -/
def deleteStoryPermanently (sid : String) (oracle : Nat → AttemptResult) :
    Bool × Nat :=
  match makeRequestPure (storyUrl sid) oracle with
  | (.error _, n) => (false, n)
  | (.ok r, n) => (r.status == 404 || r.isOk, n)

/-- The network behaviour one identifier's run observes: one attempt
oracle per stage call (`decirc i` is the oracle of the `i`-th website's
delete call). -/
structure PipeEnv where
  circ : Nat → AttemptResult
  decirc : Nat → Nat → AttemptResult
  unpub : Nat → AttemptResult
  del : Nat → AttemptResult

/-- The stage at which `process_story_for_deletion` returned, named as
in §3 of the specification.  The Python function itself returns `None`
on every path; this value is the ghost record of which return point was
taken. -/
inductive PipelineOutcome where
  | success
  | failedAtCirculationLookup
  | failedAtDecirculation
  | failedAtUnpublish
  | failedAtDeletion
deriving DecidableEq, Repr

/-- Ghost trace of one identifier's run: how many delete-circulation
calls were issued, whether the unpublish and the permanent-delete calls
were reached, and whether a failure log line was printed
(lines 298, 302, 307, 312). -/
structure PipeTrace where
  decircCalls : Nat
  unpubCalled : Bool
  delCalled : Bool
  failureLogged : Bool
deriving DecidableEq, Repr

/-- `process_story_for_deletion` (lines 291-312): the strictly ordered
four-stage sequence, halting at the first stage that fails. -/
def processStoryForDeletion (sid : String) (env : PipeEnv) :
    PipelineOutcome × PipeTrace :=
  match (getCirculations sid env.circ).1 with
  | none => (.failedAtCirculationLookup, ⟨0, false, false, true⟩)
  | some wids =>
    if (decirculateStory sid env.decirc wids).1 = false then
      (.failedAtDecirculation, ⟨wids.length, false, false, true⟩)
    else if (unpublishStory sid env.unpub).1 = false then
      (.failedAtUnpublish, ⟨wids.length, true, false, true⟩)
    else if (deleteStoryPermanently sid env.del).1 = false then
      (.failedAtDeletion, ⟨wids.length, true, true, true⟩)
    else
      (.success, ⟨wids.length, true, true, false⟩)

/-! ## Input loading (source lines 142-174) -/

/-- One parsed row of `load_rows_from_csv`. -/
structure CsvRow where
  story_id : String
  publish_date : Option String
  url : Option String
  site : Option String
deriving DecidableEq, Repr

/-- Python `a or b or ...` over optional strings: the first truthy
(present and non-empty) value, else the last operand unchanged. -/
def pyOr : List (Option String) → Option String
  | [] => none
  | [x] => x
  | x :: rest =>
    match x with
    | some s => if s == "" then pyOr rest else some s
    | none => pyOr rest

/-- Truthiness of an optional string (`if story_id:`). -/
def truthyStr : Option String → Bool
  | none => false
  | some s => s != ""

/-- `csv.DictReader` row access: pair header names with the row's
fields positionally (`zip` drops the extras a real `DictReader` would
stash under `restkey`, and a missing field reads as `None`, as there). -/
def rowGet (hdr row : List String) (k : String) : Option String :=
  ((hdr.zip row).find? (fun p => p.1 == k)).map (fun p => p.2)

/-- Python's `str.strip()`: drop whitespace from both ends (written
over the character list so that concrete inputs evaluate). -/
def pyStrip (s : String) : String :=
  ⟨((s.data.dropWhile Char.isWhitespace).reverse.dropWhile
    Char.isWhitespace).reverse⟩

/-- The identifier-shape test of line 153: a 26-character alphanumeric
first value (ASCII reading of Python's `str.isalnum`). -/
def isIdShape (s : String) : Bool :=
  s.length == 26 && s.data.all Char.isAlphanum

/-- The identifier `load_rows_from_csv` reads from a header-mode row
(line 158). -/
def headerRowId (hdr row : List String) : Option String :=
  pyOr [rowGet hdr row "story_id", rowGet hdr row "id", rowGet hdr row "_id"]

/-- `load_rows_from_csv` (lines 142-174) over the file's lines, each
already split into comma-separated fields (fields are assumed free of
quoting).  `siteGuess` is `extract_site_from_filename`'s result.
Header auto-detection: the first line's first field is stripped and
matched against the identifier shape; with a header the first line
names the columns, without one every line is data. -/
def loadRowsFromCsv (siteGuess : Option String) (lines : List (List String)) :
    List CsvRow :=
  match lines with
  | [] => []
  | first :: rest =>
    let firstValue := pyStrip (first.headD "")
    if isIdShape firstValue then
      (first :: rest).filterMap (fun row =>
        let sid := pyStrip (row.headD "")
        if sid == "" then none
        else some ⟨sid, (row.get? 1).map pyStrip,
          (row.get? 2).map pyStrip, siteGuess⟩)
    else
      rest.filterMap (fun row =>
        let sid := headerRowId first row
        if truthyStr sid then
          some ⟨sid.getD "",
            pyOr [rowGet first row "publish_date", rowGet first row "publish",
              rowGet first row "date"],
            pyOr [rowGet first row "url", rowGet first row "canonical_url",
              rowGet first row "website_url"],
            pyOr [rowGet first row "site", rowGet first row "website", siteGuess]⟩
        else none)

/-! ## The `--limit` cap and the final summary (source lines 315-395) -/

/-- Python's `xs[:n]` for an `int` bound (negative bounds count from
the end, clamped at zero). -/
def pySliceTo (n : Int) (xs : List String) : List String :=
  if 0 ≤ n then xs.take n.toNat else xs.take (xs.length - (-n).toNat)

/-- Lines 352-353: `if args.limit: story_ids = story_ids[:args.limit]`
— the cap applies only when the flag is present and truthy, so an
explicit `--limit 0` leaves the list untouched. -/
def applyLimit (limit : Option Int) (xs : List String) : List String :=
  match limit with
  | none => xs
  | some n => if n == 0 then xs else pySliceTo n xs

/-- Everything the `__main__` block's final report contains
(lines 388-390): the count of completed futures — incremented once per
identifier whatever happened to it — the elapsed wall-clock time, and
the average rate.  `process_story_for_deletion` returns `None` on every
path, so the scheduler never sees an outcome; `mainSummary` takes the
run's ghost outcome list only to make that independence provable. -/
structure RunSummary where
  processed : Nat
  totalSeconds : ℚ
  avgRate : ℚ
deriving DecidableEq, Repr

def mainSummary (outcomes : List PipelineOutcome) (totalSeconds : ℚ) :
    RunSummary :=
  ⟨outcomes.length, totalSeconds, (outcomes.length : ℚ) / totalSeconds⟩

/-! ## Token-bucket lemmas and the C5 theorem -/

lemma consume_preserves (b : TokenBucket) (now : ℚ)
    (hf : 0 ≤ b.fillRate) (hc : 0 ≤ b.capacity) (hinv : bucketInv b)
    (ht : b.timestamp ≤ now) :
    bucketInv (b.consume now 1).1 ∧ (b.consume now 1).1.timestamp = now ∧
      (b.consume now 1).1.capacity = b.capacity ∧
      (b.consume now 1).1.fillRate = b.fillRate := by
  obtain ⟨hlo, hhi⟩ := hinv
  unfold TokenBucket.consume
  rw [ratMin_eq_min]
  have hx : 0 ≤ b.tokens + b.fillRate * (now - b.timestamp) :=
    add_nonneg hlo (mul_nonneg hf (by linarith))
  have h0 : 0 ≤ min b.capacity (b.tokens + b.fillRate * (now - b.timestamp)) :=
    le_min hc hx
  have h1 : min b.capacity (b.tokens + b.fillRate * (now - b.timestamp)) ≤
      b.capacity := min_le_left _ _
  dsimp only
  split_ifs with hcase
  · refine ⟨⟨?_, ?_⟩, rfl, rfl, rfl⟩ <;> dsimp only <;> linarith
  · refine ⟨⟨?_, ?_⟩, rfl, rfl, rfl⟩ <;> dsimp only <;> linarith

lemma consumeSeq_inv : ∀ (times : List ℚ) (b : TokenBucket),
    0 ≤ b.fillRate → 0 ≤ b.capacity → bucketInv b →
    timesOk b.timestamp times = true → bucketInv (consumeSeq b times) := by
  intro times
  induction times with
  | nil => intro b _ _ hinv _; exact hinv
  | cons t ts ih =>
    intro b hf hc hinv hok
    simp only [timesOk, Bool.and_eq_true, decide_eq_true_eq] at hok
    obtain ⟨ht, hok2⟩ := hok
    obtain ⟨hinv2, hts, hcap, hfr⟩ := consume_preserves b t hf hc hinv ht
    simp only [consumeSeq]
    refine ih (b.consume t 1).1 ?_ ?_ hinv2 ?_
    · rw [hfr]; exact hf
    · rw [hcap]; exact hc
    · rw [hts]; exact hok2

/-- C5: `TokenBucket.consume` coincides with the reference token-bucket
step (refill to `min(capacity, tokens + fill_rate * elapsed)`, then
deduct exactly when the refilled level covers the requested amount),
and under any sequence of calls with non-negative elapsed times the
stored token count stays within `[0, capacity]`. -/
theorem tokenBucket_consume_correct :
    (∀ (b : TokenBucket) (now amount : ℚ),
      TokenBucket.consume b now amount = consumeSpec b now amount)
    ∧ (∀ (b : TokenBucket) (times : List ℚ),
      0 ≤ b.fillRate → 0 ≤ b.capacity → bucketInv b →
      timesOk b.timestamp times = true →
      0 ≤ (consumeSeq b times).tokens ∧
        (consumeSeq b times).tokens ≤ (consumeSeq b times).capacity) :=
  ⟨fun b now amount => by
      unfold TokenBucket.consume consumeSpec
      rw [ratMin_eq_min],
   fun b times hf hc hinv hok => consumeSeq_inv times b hf hc hinv hok⟩

/-- Witness for C5 on the production limiter (capacity 18, rate 13)
started at clock 0 and polled at instants 0, 1, 1, 2. -/
theorem tokenBucket_consume_correct_witness :
    TokenBucket.consume (rateLimiterInit 0) 1 1 =
      consumeSpec (rateLimiterInit 0) 1 1
    ∧ (0 ≤ (consumeSeq (rateLimiterInit 0) [0, 1, 1, 2]).tokens ∧
      (consumeSeq (rateLimiterInit 0) [0, 1, 1, 2]).tokens ≤
        (consumeSeq (rateLimiterInit 0) [0, 1, 1, 2]).capacity) :=
  ⟨tokenBucket_consume_correct.1 (rateLimiterInit 0) 1 1,
   tokenBucket_consume_correct.2 (rateLimiterInit 0) [0, 1, 1, 2]
     (by decide) (by decide) (by exact ⟨by decide, by decide⟩) (by decide)⟩

/-! ## Trace discipline of the retry loop -/

/-- A trace obeys the admission discipline when every `httpRequest`
event immediately follows a successful `consume`; `prev` is the event
just before the list (none at the start of a trace). -/
def wellAdmittedAux : Option Event → List Event → Bool
  | _, [] => true
  | prev, e :: rest =>
    (match e with
     | Event.httpRequest => prev == some Event.consumeOk
     | _ => true) && wellAdmittedAux (some e) rest

def wellAdmitted (evs : List Event) : Bool := wellAdmittedAux none evs

lemma count_replicate_consumeFail (e : Event) (h : e ≠ Event.consumeFail) :
    ∀ n, (List.replicate n Event.consumeFail).count e = 0 := by
  intro n
  induction n with
  | zero => rfl
  | succ n ih =>
    simp only [List.replicate_succ, List.count_cons, ih]
    simp [h, Ne.symm h]

lemma wellAdmittedAux_admitBlock (n : Nat) :
    ∀ (prev : Option Event) (rest : List Event),
    wellAdmittedAux prev
        (List.replicate n Event.consumeFail ++ Event.consumeOk :: rest) =
      wellAdmittedAux (some Event.consumeOk) rest := by
  induction n with
  | zero => intro prev rest; simp [wellAdmittedAux]
  | succ n ih =>
    intro prev rest
    rw [List.replicate_succ, List.cons_append]
    show (true && wellAdmittedAux (some Event.consumeFail)
      (List.replicate n Event.consumeFail ++ Event.consumeOk :: rest)) = _
    rw [Bool.true_and, ih]

lemma waitForToken_cons (b : TokenBucket) (t : ℚ) (rest : List ℚ) :
    waitForToken b (t :: rest) =
      (match b.consume t 1 with
       | (b1, true) => some (b1, [Event.consumeOk])
       | (b1, false) =>
         (waitForToken b1 rest).map
           (fun z => (z.1, Event.consumeFail :: z.2))) := rfl

lemma waitForToken_shape : ∀ (polls : List ℚ) (b b1 : TokenBucket)
    (evs : List Event), waitForToken b polls = some (b1, evs) →
    (∃ n, evs = List.replicate n Event.consumeFail ++ [Event.consumeOk])
    ∧ ∃ (pre : TokenBucket) (t : ℚ), t ∈ polls ∧
      TokenBucket.consume pre t 1 = (b1, true) := by
  intro polls
  induction polls with
  | nil => intro b b1 evs h; exact Option.noConfusion h
  | cons t ts ih =>
    intro b b1 evs h
    rcases hc : b.consume t 1 with ⟨b2, flag⟩
    rw [waitForToken_cons, hc] at h
    cases flag with
    | true =>
      simp only [Option.some.injEq, Prod.mk.injEq] at h
      obtain ⟨hb, he⟩ := h
      refine ⟨⟨0, by simp [← he]⟩, b, t, List.mem_cons_self t ts, ?_⟩
      rw [hc, hb]
    | false =>
      simp only [Option.map_eq_some'] at h
      obtain ⟨⟨b3, evs3⟩, h3, hmk⟩ := h
      simp only [Prod.mk.injEq] at hmk
      obtain ⟨hb3, hevs⟩ := hmk
      obtain ⟨⟨n, hn⟩, pre, t2, ht2, hcons⟩ := ih b2 b3 evs3 h3
      refine ⟨⟨n + 1, ?_⟩, pre, t2, List.mem_cons_of_mem t ht2, ?_⟩
      · rw [← hevs, hn, List.replicate_succ, List.cons_append]
      · rw [hcons, hb3]

lemma requestLoop_succ (url : String) (oracle : Nat → AttemptResult)
    (sched : Nat → List ℚ) (fuel k : Nat) (lastErr : String) (b : TokenBucket) :
    requestLoop url oracle sched (fuel + 1) k lastErr b =
      (match waitForToken b (sched k) with
       | none => none
       | some (b1, admitEvs) =>
         match oracle k with
         | .exn m =>
           (requestLoop url oracle sched fuel (k + 1) ("Exception: " ++ m) b1).map
             (fun z => (z.1, z.2.1,
               admitEvs ++ Event.httpRequest :: Event.sleepEv :: z.2.2))
         | .resp r =>
           if r.status == 429 then
             (requestLoop url oracle sched fuel (k + 1) "HTTP 429 (Rate Limit)" b1).map
               (fun z => (z.1, z.2.1,
                 admitEvs ++ Event.httpRequest :: Event.sleepEv :: z.2.2))
           else if isServerError r.status then
             (requestLoop url oracle sched fuel (k + 1)
                 ("HTTP " ++ toString r.status ++ " (Server Error)") b1).map
               (fun z => (z.1, z.2.1,
                 admitEvs ++ Event.httpRequest :: Event.sleepEv :: z.2.2))
           else
             some (b1, .ok r, admitEvs ++ [Event.httpRequest])) := rfl

lemma requestLoopPure_succ (url : String) (oracle : Nat → AttemptResult)
    (fuel k : Nat) (lastErr : String) :
    requestLoopPure url oracle (fuel + 1) k lastErr =
      (match oracle k with
       | .exn m =>
         let p := requestLoopPure url oracle fuel (k + 1) ("Exception: " ++ m)
         (p.1, p.2 + 1)
       | .resp r =>
         if r.status == 429 then
           let p := requestLoopPure url oracle fuel (k + 1) "HTTP 429 (Rate Limit)"
           (p.1, p.2 + 1)
         else if isServerError r.status then
           let p := requestLoopPure url oracle fuel (k + 1)
             ("HTTP " ++ toString r.status ++ " (Server Error)")
           (p.1, p.2 + 1)
         else
           (.ok r, 1)) := rfl

lemma assemble_retry (n : Nat) (evs2 : List Event)
    (hwa : ∀ prev, wellAdmittedAux prev evs2 = true) :
    (∀ prev, wellAdmittedAux prev
      ((List.replicate n Event.consumeFail ++ [Event.consumeOk]) ++
        Event.httpRequest :: Event.sleepEv :: evs2) = true)
    ∧ ((List.replicate n Event.consumeFail ++ [Event.consumeOk]) ++
        Event.httpRequest :: Event.sleepEv :: evs2).count Event.httpRequest =
      evs2.count Event.httpRequest + 1
    ∧ ((List.replicate n Event.consumeFail ++ [Event.consumeOk]) ++
        Event.httpRequest :: Event.sleepEv :: evs2).count Event.consumeOk =
      evs2.count Event.consumeOk + 1
    ∧ 1 ≤ ((List.replicate n Event.consumeFail ++ [Event.consumeOk]) ++
        Event.httpRequest :: Event.sleepEv :: evs2).count Event.sleepEv := by
  rw [List.append_assoc, List.singleton_append]
  refine ⟨?_, ?_, ?_, ?_⟩
  · intro prev
    rw [wellAdmittedAux_admitBlock]
    show (true && (true && wellAdmittedAux (some Event.sleepEv) evs2)) = true
    rw [hwa]
    rfl
  · simp [List.count_append, List.count_cons,
      count_replicate_consumeFail Event.httpRequest (by simp)]
  · simp [List.count_append, List.count_cons,
      count_replicate_consumeFail Event.consumeOk (by simp)]
  · simp [List.count_append, List.count_cons,
      count_replicate_consumeFail Event.sleepEv (by simp)]

lemma assemble_final (n : Nat) :
    (∀ prev, wellAdmittedAux prev
      ((List.replicate n Event.consumeFail ++ [Event.consumeOk]) ++
        [Event.httpRequest]) = true)
    ∧ ((List.replicate n Event.consumeFail ++ [Event.consumeOk]) ++
        [Event.httpRequest]).count Event.httpRequest = 1
    ∧ ((List.replicate n Event.consumeFail ++ [Event.consumeOk]) ++
        [Event.httpRequest]).count Event.consumeOk = 1
    ∧ ((List.replicate n Event.consumeFail ++ [Event.consumeOk]) ++
        [Event.httpRequest]).count Event.sleepEv = 0 := by
  rw [List.append_assoc, List.singleton_append]
  refine ⟨?_, ?_, ?_, ?_⟩
  · intro prev
    rw [wellAdmittedAux_admitBlock]
    rfl
  · simp [List.count_append, List.count_cons,
      count_replicate_consumeFail Event.httpRequest (by simp)]
  · simp [List.count_append, List.count_cons,
      count_replicate_consumeFail Event.consumeOk (by simp)]
  · simp [List.count_append, List.count_cons,
      count_replicate_consumeFail Event.sleepEv (by simp)]

/-- Every terminating run of the retry loop produces a trace in which
each HTTP request directly follows a successful token consume, with as
many admissions as requests; the returned value and the request count
coincide with the admission-free projection; and a run with fuel left
makes at least one request. -/
lemma requestLoop_trace (url : String) (oracle : Nat → AttemptResult)
    (sched : Nat → List ℚ) :
    ∀ (fuel k : Nat) (lastErr : String) (b b1 : TokenBucket)
      (out : Except String Response) (evs : List Event),
      requestLoop url oracle sched fuel k lastErr b = some (b1, out, evs) →
      (∀ prev, wellAdmittedAux prev evs = true)
      ∧ evs.count Event.httpRequest = evs.count Event.consumeOk
      ∧ out = (requestLoopPure url oracle fuel k lastErr).1
      ∧ evs.count Event.httpRequest = (requestLoopPure url oracle fuel k lastErr).2
      ∧ (0 < fuel → 1 ≤ evs.count Event.httpRequest) := by
  intro fuel
  induction fuel with
  | zero =>
    intro k lastErr b b1 out evs h
    simp only [requestLoop, Option.some.injEq, Prod.mk.injEq] at h
    obtain ⟨hb, hout, hevs⟩ := h
    subst hout hevs
    exact ⟨fun prev => rfl, rfl, rfl, rfl, fun h0 => absurd h0 (by omega)⟩
  | succ fuel ih =>
    intro k lastErr b b1 out evs h
    rw [requestLoop_succ] at h
    rcases hw : waitForToken b (sched k) with _ | ⟨bb, admitEvs⟩
    · rw [hw] at h; exact Option.noConfusion h
    · rw [hw] at h
      obtain ⟨⟨n, hshape⟩, -⟩ := waitForToken_shape (sched k) b bb admitEvs hw
      subst hshape
      rcases ho : oracle k with m | r
      · rw [ho] at h
        rw [Option.map_eq_some'] at h
        obtain ⟨⟨b2, out2, evs2⟩, hrec, hmk⟩ := h
        simp only [Prod.mk.injEq] at hmk
        obtain ⟨hb2, hout2, hevs2⟩ := hmk
        subst hout2 hevs2
        obtain ⟨IH1, IH2, IH3, IH4, IH5⟩ :=
          ih (k + 1) ("Exception: " ++ m) bb b2 out2 evs2 hrec
        obtain ⟨A1, A2, A3, A4⟩ := assemble_retry n evs2 IH1
        rw [requestLoopPure_succ, ho]
        exact ⟨A1, by rw [A2, A3, IH2], IH3, by rw [A2, IH4], fun h0 => by omega⟩
      · rw [ho] at h
        rw [requestLoopPure_succ, ho]
        by_cases h429 : (r.status == 429) = true
        · simp only [h429, if_true] at h ⊢
          rw [Option.map_eq_some'] at h
          obtain ⟨⟨b2, out2, evs2⟩, hrec, hmk⟩ := h
          simp only [Prod.mk.injEq] at hmk
          obtain ⟨hb2, hout2, hevs2⟩ := hmk
          subst hout2 hevs2
          obtain ⟨IH1, IH2, IH3, IH4, IH5⟩ :=
            ih (k + 1) "HTTP 429 (Rate Limit)" bb b2 out2 evs2 hrec
          obtain ⟨A1, A2, A3, A4⟩ := assemble_retry n evs2 IH1
          exact ⟨A1, by rw [A2, A3, IH2], IH3, by rw [A2, IH4], fun h0 => by omega⟩
        · simp only [h429, if_false, Bool.false_eq_true] at h ⊢
          by_cases h5xx : isServerError r.status = true
          · simp only [h5xx, if_true] at h ⊢
            rw [Option.map_eq_some'] at h
            obtain ⟨⟨b2, out2, evs2⟩, hrec, hmk⟩ := h
            simp only [Prod.mk.injEq] at hmk
            obtain ⟨hb2, hout2, hevs2⟩ := hmk
            subst hout2 hevs2
            obtain ⟨IH1, IH2, IH3, IH4, IH5⟩ :=
              ih (k + 1) ("HTTP " ++ toString r.status ++ " (Server Error)")
                bb b2 out2 evs2 hrec
            obtain ⟨A1, A2, A3, A4⟩ := assemble_retry n evs2 IH1
            exact ⟨A1, by rw [A2, A3, IH2], IH3, by rw [A2, IH4], fun h0 => by omega⟩
          · simp only [h5xx, if_false, Bool.false_eq_true] at h ⊢
            simp only [Option.some.injEq, Prod.mk.injEq] at h
            obtain ⟨hb2, hout2, hevs2⟩ := h
            subst hout2 hevs2
            obtain ⟨A1, A2, A3, A4⟩ := assemble_final n
            exact ⟨A1, by rw [A2, A3], rfl, by rw [A2], fun h0 => by omega⟩

lemma getLast_append_singleton (l : List Event) (a : Event) :
    (l ++ [a]).getLast? = some a := by
  induction l with
  | nil => rfl
  | cons x xs ih =>
    rw [List.cons_append]
    cases hx : xs ++ [a] with
    | nil => exact absurd hx (by simp)
    | cons y ys => rw [List.getLast?_cons_cons, ← hx, ih]

/-- C2: `wait_for_token` returns only once `RATE_LIMITER.consume()` has
succeeded — its poll trace ends in exactly one successful consume, and
the bucket it hands back is the post-deduction state of that consume —
and in every terminating run of `make_request_with_retry` each
`SESSION.request` is immediately preceded by a successful consume, with
one admission per attempt, so every retry re-enters admission. -/
theorem httpRequests_always_admitted :
    (∀ (b : TokenBucket) (polls : List ℚ) (b1 : TokenBucket) (evs : List Event),
      waitForToken b polls = some (b1, evs) →
      evs.getLast? = some Event.consumeOk
      ∧ evs.count Event.consumeOk = 1
      ∧ ∃ (pre : TokenBucket) (t : ℚ), t ∈ polls ∧
        TokenBucket.consume pre t 1 = (b1, true))
    ∧ (∀ (url : String) (oracle : Nat → AttemptResult) (sched : Nat → List ℚ)
      (b : TokenBucket) (z : TokenBucket × Except String Response × List Event),
      makeRequestWithRetry url oracle sched b = some z →
      wellAdmitted z.2.2 = true
      ∧ z.2.2.count Event.httpRequest = z.2.2.count Event.consumeOk) := by
  constructor
  · intro b polls b1 evs h
    obtain ⟨⟨n, hshape⟩, hpre⟩ := waitForToken_shape polls b b1 evs h
    subst hshape
    refine ⟨getLast_append_singleton _ _, ?_, hpre⟩
    simp [List.count_append,
      count_replicate_consumeFail Event.consumeOk (by simp)]
  · intro url oracle sched b z h
    rcases z with ⟨b1, out, evs⟩
    obtain ⟨H1, H2, -, -, -⟩ :=
      requestLoop_trace url oracle sched maxRetries 0 "Unknown" b b1 out evs h
    exact ⟨H1 none, H2⟩

/-- Witness for C2: a fresh limiter admits the first poll at once, and a
one-attempt run (first response 200) traces one admission then one
request. -/
theorem httpRequests_always_admitted_witness :
    (([Event.consumeOk] : List Event).getLast? = some Event.consumeOk
    ∧ ([Event.consumeOk] : List Event).count Event.consumeOk = 1
    ∧ ∃ (pre : TokenBucket) (t : ℚ), t ∈ [(0 : ℚ)] ∧
      TokenBucket.consume pre t 1 = (⟨18, 17, 13, 0⟩, true))
    ∧ wellAdmitted [Event.consumeOk, Event.httpRequest] = true
    ∧ ([Event.consumeOk, Event.httpRequest] : List Event).count
        Event.httpRequest =
      ([Event.consumeOk, Event.httpRequest] : List Event).count
        Event.consumeOk := by
  have hc : TokenBucket.consume (rateLimiterInit 0) 0 1 =
      (⟨18, 17, 13, 0⟩, true) := by
    simp only [rateLimiterInit, TokenBucket.init, TokenBucket.consume, ratMin]
    norm_num
  have hw : waitForToken (rateLimiterInit 0) [0] =
      some (⟨18, 17, 13, 0⟩, [Event.consumeOk]) := by
    rw [waitForToken_cons, hc]
  have hm : makeRequestWithRetry "u" (fun _ => .resp ⟨200, none⟩)
      (fun _ => [0]) (rateLimiterInit 0) =
      some (⟨18, 17, 13, 0⟩, .ok ⟨200, none⟩,
        [Event.consumeOk, Event.httpRequest]) := by
    show requestLoop "u" (fun _ => .resp ⟨200, none⟩) (fun _ => [0])
      (7 + 1) 0 "Unknown" (rateLimiterInit 0) = _
    rw [requestLoop_succ, hw]
    norm_num [isServerError]
  exact ⟨httpRequests_always_admitted.1 (rateLimiterInit 0) [0] _ _ hw,
    httpRequests_always_admitted.2 "u" (fun _ => .resp ⟨200, none⟩)
      (fun _ => [0]) (rateLimiterInit 0) _ hm⟩

lemma requestLoopPure_allRetry (url : String) (oracle : Nat → AttemptResult) :
    ∀ (fuel k : Nat) (lastErr : String),
    (∀ i, i < fuel → retryable (oracle (k + i)) = true) →
    requestLoopPure url oracle fuel k lastErr =
      (.error (exhaustedMsg url
        (if fuel = 0 then lastErr else lastErrorOf (oracle (k + fuel - 1)))),
       fuel) := by
  intro fuel
  induction fuel with
  | zero => intro k lastErr _; simp [requestLoopPure]
  | succ fuel ih =>
    intro k lastErr h
    have h0 : retryable (oracle k) = true := by
      have := h 0 (by omega)
      rwa [Nat.add_zero] at this
    have hsh : ∀ i, i < fuel → retryable (oracle (k + 1 + i)) = true := by
      intro i hi
      have := h (i + 1) (by omega)
      rwa [show k + (i + 1) = k + 1 + i by omega] at this
    rcases ho : oracle k with m | r
    · rw [requestLoopPure_succ, ho]
      dsimp only
      rw [ih (k + 1) ("Exception: " ++ m) hsh]
      rcases Nat.eq_zero_or_pos fuel with hf | hf
      · subst hf
        simp [ho, lastErrorOf]
      · have : fuel ≠ 0 := by omega
        simp only [this, if_false, Nat.succ_ne_zero]
        rw [show k + 1 + fuel - 1 = k + (fuel + 1) - 1 by omega]
    · rw [requestLoopPure_succ, ho]
      rw [ho] at h0
      by_cases h429 : (r.status == 429) = true
      · simp only [h429, if_true]
        rw [ih (k + 1) "HTTP 429 (Rate Limit)" hsh]
        rcases Nat.eq_zero_or_pos fuel with hf | hf
        · subst hf
          have h429e : r.status = 429 := by simpa using h429
          simp [lastErrorOf, ho, h429e]
        · have : fuel ≠ 0 := by omega
          simp only [this, if_false, Nat.succ_ne_zero]
          rw [show k + 1 + fuel - 1 = k + (fuel + 1) - 1 by omega]
      · have h5xx : isServerError r.status = true := by
          simp only [retryable, h429, Bool.false_or] at h0
          exact h0
        simp only [h429, if_false, Bool.false_eq_true, h5xx, if_true]
        rw [ih (k + 1) ("HTTP " ++ toString r.status ++ " (Server Error)") hsh]
        rcases Nat.eq_zero_or_pos fuel with hf | hf
        · subst hf
          have h429e : r.status ≠ 429 := by simpa using h429
          simp [lastErrorOf, ho, h429e]
        · have : fuel ≠ 0 := by omega
          simp only [this, if_false, Nat.succ_ne_zero]
          rw [show k + 1 + fuel - 1 = k + (fuel + 1) - 1 by omega]

/-- C3: when every one of the first `max_retries = 8` attempts observes
a retryable failure (HTTP 429, a 5xx, or a connection exception), a
terminating `make_request_with_retry` raises the exhaustion exception
whose message records the last observed error, after exactly 8 HTTP
attempts — never returning a response and never making a 9th attempt. -/
theorem retry_exhaustion_after_eight (url : String)
    (oracle : Nat → AttemptResult) (sched : Nat → List ℚ) (b : TokenBucket)
    (hretry : ∀ i, i < maxRetries → retryable (oracle i) = true)
    (hsome : (makeRequestWithRetry url oracle sched b).isSome = true) :
    (makeRequestWithRetry url oracle sched b).map (fun z => z.2.1) =
      some (Except.error (exhaustedMsg url (lastErrorOf (oracle 7))))
    ∧ (makeRequestWithRetry url oracle sched b).map
        (fun z => z.2.2.count Event.httpRequest) = some maxRetries := by
  obtain ⟨⟨b1, out, evs⟩, hz⟩ := Option.isSome_iff_exists.mp hsome
  obtain ⟨-, -, hout, hcnt, -⟩ :=
    requestLoop_trace url oracle sched maxRetries 0 "Unknown" b b1 out evs hz
  have hpure := requestLoopPure_allRetry url oracle maxRetries 0 "Unknown"
    (by intro i hi; rw [Nat.zero_add]; exact hretry i hi)
  rw [makeRequestWithRetry] at hz
  rw [makeRequestWithRetry, hz]
  rw [hpure] at hout hcnt
  norm_num [maxRetries] at hout hcnt
  refine ⟨?_, ?_⟩ <;> simp only [Option.map_some']
  · rw [hout]
  · rw [hcnt]
    rfl

lemma consume_zero_elapsed (cap tk fr ts : ℚ) (h1 : 1 ≤ tk) (h2 : tk ≤ cap) :
    TokenBucket.consume ⟨cap, tk, fr, ts⟩ ts 1 = (⟨cap, tk - 1, fr, ts⟩, true) := by
  unfold TokenBucket.consume
  dsimp only
  rw [ratMin_eq_min, sub_self, mul_zero, add_zero, min_eq_right h2, if_pos h1]

lemma run429_isSome : ∀ (fuel k : Nat) (lastErr : String) (tk : ℚ),
    (fuel : ℚ) ≤ tk → tk ≤ 18 →
    (requestLoop "u" (fun _ => AttemptResult.resp ⟨429, none⟩) (fun _ => [0])
      fuel k lastErr ⟨18, tk, 13, 0⟩).isSome = true := by
  intro fuel
  induction fuel with
  | zero => intro k lastErr tk _ _; rfl
  | succ fuel ih =>
    intro k lastErr tk hle h18
    have h1 : (1 : ℚ) ≤ tk := by
      have : ((fuel : ℚ) + 1) ≤ tk := by push_cast at hle; linarith
      have hf : (0 : ℚ) ≤ (fuel : ℚ) := Nat.cast_nonneg fuel
      linarith
    have hw : waitForToken ⟨18, tk, 13, 0⟩ [0] =
        some (⟨18, tk - 1, 13, 0⟩, [Event.consumeOk]) := by
      rw [waitForToken_cons, consume_zero_elapsed 18 tk 13 0 h1 h18]
    rw [requestLoop_succ, hw]
    dsimp only
    rw [if_pos (by rfl : ((429 : Nat) == 429) = true)]
    have hfle : (fuel : ℚ) ≤ tk - 1 := by
      have : ((fuel : ℚ) + 1) ≤ tk := by push_cast at hle; linarith
      linarith
    have hrec := ih (k + 1) "HTTP 429 (Rate Limit)" (tk - 1) hfle (by linarith)
    rcases hres : requestLoop "u" (fun _ => AttemptResult.resp ⟨429, none⟩)
        (fun _ => [0]) fuel (k + 1) "HTTP 429 (Rate Limit)"
        ⟨18, tk - 1, 13, 0⟩ with _ | z
    · rw [hres] at hrec
      exact absurd hrec (by simp)
    · rfl

/-- Witness for C3: an oracle answering 429 to every attempt, polled
against a fresh limiter, exhausts all 8 attempts and raises. -/
theorem retry_exhaustion_after_eight_witness :
    (makeRequestWithRetry "u" (fun _ => AttemptResult.resp ⟨429, none⟩)
      (fun _ => [0]) (rateLimiterInit 0)).map (fun z => z.2.1) =
      some (Except.error (exhaustedMsg "u" "HTTP 429 (Rate Limit)"))
    ∧ (makeRequestWithRetry "u" (fun _ => AttemptResult.resp ⟨429, none⟩)
      (fun _ => [0]) (rateLimiterInit 0)).map
        (fun z => z.2.2.count Event.httpRequest) = some maxRetries :=
  retry_exhaustion_after_eight "u" (fun _ => AttemptResult.resp ⟨429, none⟩)
    (fun _ => [0]) (rateLimiterInit 0)
    (fun i _ => rfl)
    (run429_isSome maxRetries 0 "Unknown" 18 (by norm_num [maxRetries])
      (by norm_num))

lemma mapped_retry_counts (url : String) (oracle : Nat → AttemptResult)
    (sched : Nat → List ℚ) (fuel k : Nat) (le2 : String) (bb : TokenBucket)
    (n : Nat) (z : TokenBucket × Except String Response × List Event)
    (hfuel : 0 < fuel)
    (h : (requestLoop url oracle sched fuel k le2 bb).map
      (fun w => (w.1, w.2.1,
        (List.replicate n Event.consumeFail ++ [Event.consumeOk]) ++
          Event.httpRequest :: Event.sleepEv :: w.2.2)) = some z) :
    2 ≤ z.2.2.count Event.httpRequest ∧ 1 ≤ z.2.2.count Event.sleepEv := by
  rw [Option.map_eq_some'] at h
  obtain ⟨⟨b2, out2, evs2⟩, hrec, hmk⟩ := h
  obtain ⟨IH1, -, -, -, IH5⟩ :=
    requestLoop_trace url oracle sched fuel k le2 bb b2 out2 evs2 hrec
  obtain ⟨-, A2, -, A4⟩ := assemble_retry n evs2 IH1
  subst hmk
  refine ⟨?_, A4⟩
  have := IH5 hfuel
  dsimp only
  omega

/-- C4: `make_request_with_retry` classifies attempts exactly as the
taxonomy requires — an attempt whose response is neither a 429 nor a
5xx (so any 2xx, 404 or fatal 4xx) is returned to the caller on that
very attempt, with one request and no sleep; while a retryable first
attempt (429, 5xx, or a raised connection exception) is followed by a
backoff sleep and at least one further admitted attempt. -/
theorem request_classification :
    (∀ (url : String) (oracle : Nat → AttemptResult) (sched : Nat → List ℚ)
      (b : TokenBucket) (r : Response) (b1 : TokenBucket) (evs1 : List Event),
      oracle 0 = .resp r → retryable (.resp r) = false →
      waitForToken b (sched 0) = some (b1, evs1) →
      makeRequestWithRetry url oracle sched b =
        some (b1, Except.ok r, evs1 ++ [Event.httpRequest])
      ∧ (evs1 ++ [Event.httpRequest]).count Event.httpRequest = 1
      ∧ (evs1 ++ [Event.httpRequest]).count Event.sleepEv = 0)
    ∧ (∀ (url : String) (oracle : Nat → AttemptResult) (sched : Nat → List ℚ)
      (b : TokenBucket) (z : TokenBucket × Except String Response × List Event),
      retryable (oracle 0) = true →
      makeRequestWithRetry url oracle sched b = some z →
      2 ≤ z.2.2.count Event.httpRequest ∧ 1 ≤ z.2.2.count Event.sleepEv) := by
  constructor
  · intro url oracle sched b r b1 evs1 ho hret hw
    have hboth : (r.status == 429) = false ∧ isServerError r.status = false := by
      simpa [retryable, Bool.or_eq_false_iff] using hret
    obtain ⟨h429, h5xx⟩ := hboth
    obtain ⟨⟨n, hshape⟩, -⟩ := waitForToken_shape (sched 0) b b1 evs1 hw
    constructor
    · show requestLoop url oracle sched (7 + 1) 0 "Unknown" b = _
      rw [requestLoop_succ, hw, ho]
      simp only [h429, Bool.false_eq_true, if_false, h5xx]
    · subst hshape
      obtain ⟨-, A2, -, A4⟩ := assemble_final n
      exact ⟨A2, A4⟩
  · intro url oracle sched b z hret hz
    rw [makeRequestWithRetry] at hz
    rw [show maxRetries = 7 + 1 from rfl, requestLoop_succ] at hz
    rcases hw : waitForToken b (sched 0) with _ | ⟨bb, admitEvs⟩
    · rw [hw] at hz; exact Option.noConfusion hz
    · rw [hw] at hz
      obtain ⟨⟨n, hshape⟩, -⟩ := waitForToken_shape (sched 0) b bb admitEvs hw
      subst hshape
      rcases ho : oracle 0 with m | r
      · rw [ho] at hz
        dsimp only at hz
        exact mapped_retry_counts url oracle sched 7 1 ("Exception: " ++ m)
          bb n z (by omega) hz
      · rw [ho] at hz
        rw [ho] at hret
        dsimp only at hz
        by_cases h429 : (r.status == 429) = true
        · rw [if_pos h429] at hz
          exact mapped_retry_counts url oracle sched 7 1 "HTTP 429 (Rate Limit)"
            bb n z (by omega) hz
        · have h5xx : isServerError r.status = true := by
            simp only [retryable, h429, Bool.false_or] at hret
            exact hret
          rw [if_neg h429, if_pos h5xx] at hz
          exact mapped_retry_counts url oracle sched 7 1
            ("HTTP " ++ toString r.status ++ " (Server Error)") bb n z
            (by omega) hz

/-- Witness for C4: a 404 first response is returned immediately after a
single admitted attempt; a 429 first response followed by a 200 leads
to a sleep and one retried attempt (two requests in total). -/
theorem request_classification_witness :
    (makeRequestWithRetry "u" (fun _ => AttemptResult.resp ⟨404, none⟩)
        (fun _ => [0]) (rateLimiterInit 0) =
      some (⟨18, 17, 13, 0⟩, Except.ok ⟨404, none⟩,
        [Event.consumeOk] ++ [Event.httpRequest])
    ∧ ([Event.consumeOk] ++ [Event.httpRequest]).count Event.httpRequest = 1
    ∧ ([Event.consumeOk] ++ [Event.httpRequest]).count Event.sleepEv = 0)
    ∧ (2 ≤ ([Event.consumeOk, Event.httpRequest, Event.sleepEv,
        Event.consumeOk, Event.httpRequest] : List Event).count
          Event.httpRequest
      ∧ 1 ≤ ([Event.consumeOk, Event.httpRequest, Event.sleepEv,
        Event.consumeOk, Event.httpRequest] : List Event).count
          Event.sleepEv) := by
  have hc18 : TokenBucket.consume ⟨18, 18, 13, 0⟩ 0 1 =
      (⟨18, 17, 13, 0⟩, true) := by
    rw [consume_zero_elapsed 18 18 13 0 (by norm_num) (by norm_num)]
    norm_num
  have hc17 : TokenBucket.consume ⟨18, 17, 13, 0⟩ 0 1 =
      (⟨18, 16, 13, 0⟩, true) := by
    rw [consume_zero_elapsed 18 17 13 0 (by norm_num) (by norm_num)]
    norm_num
  have hwA : waitForToken (rateLimiterInit 0) [0] =
      some (⟨18, 17, 13, 0⟩, [Event.consumeOk]) := by
    show waitForToken ⟨18, 18, 13, 0⟩ [0] = _
    rw [waitForToken_cons, hc18]
  have hwB : waitForToken ⟨18, 17, 13, 0⟩ [0] =
      some (⟨18, 16, 13, 0⟩, [Event.consumeOk]) := by
    rw [waitForToken_cons, hc17]
  have hrun1 : requestLoop "u"
      (fun i => if i == 0 then AttemptResult.resp ⟨429, none⟩
        else AttemptResult.resp ⟨200, none⟩) (fun _ => [0])
      7 1 "HTTP 429 (Rate Limit)" ⟨18, 17, 13, 0⟩ =
      some (⟨18, 16, 13, 0⟩, Except.ok ⟨200, none⟩,
        [Event.consumeOk, Event.httpRequest]) := by
    rw [show (7 : Nat) = 6 + 1 from rfl, requestLoop_succ]
    rw [hwB]
    dsimp only
    rw [if_neg (by decide : ¬(((1 : Nat) == 0) = true))]
    dsimp only
    rw [if_neg (by decide : ¬(((200 : Nat) == 429) = true)),
      if_neg (by decide : ¬(isServerError 200 = true))]
    rfl
  have hrun0 : makeRequestWithRetry "u"
      (fun i => if i == 0 then AttemptResult.resp ⟨429, none⟩
        else AttemptResult.resp ⟨200, none⟩) (fun _ => [0])
      (rateLimiterInit 0) =
      some (⟨18, 16, 13, 0⟩, Except.ok ⟨200, none⟩,
        [Event.consumeOk, Event.httpRequest, Event.sleepEv,
          Event.consumeOk, Event.httpRequest]) := by
    show requestLoop "u" _ _ (7 + 1) 0 "Unknown" (rateLimiterInit 0) = _
    rw [requestLoop_succ]
    rw [hwA]
    dsimp only
    rw [if_pos (by decide : (((0 : Nat) == 0) = true))]
    dsimp only
    rw [if_pos (by decide : (((429 : Nat) == 429) = true)), hrun1]
    rfl
  exact ⟨request_classification.1 "u" (fun _ => AttemptResult.resp ⟨404, none⟩)
      (fun _ => [0]) (rateLimiterInit 0) ⟨404, none⟩ ⟨18, 17, 13, 0⟩
      [Event.consumeOk] rfl rfl hwA,
    request_classification.2 "u"
      (fun i => if i == 0 then AttemptResult.resp ⟨429, none⟩
        else AttemptResult.resp ⟨200, none⟩) (fun _ => [0])
      (rateLimiterInit 0) _ rfl hrun0⟩

/-! ## Stage ordering (C1) and idempotence on 404 (C7) -/

/-- C1: the four stages run strictly in order with no skipping — a
`None` from `get_circulations` stops the identifier before any
decirculation, unpublish or delete call; a failed decirculation stage
stops it before unpublish and delete; a failed unpublish stops it
before delete; and the unpublish or delete call is reached only when
every earlier stage reported success. -/
theorem pipeline_stage_ordering (sid : String) (env : PipeEnv) :
    ((getCirculations sid env.circ).1 = none →
      processStoryForDeletion sid env =
        (.failedAtCirculationLookup, ⟨0, false, false, true⟩))
    ∧ (∀ wids, (getCirculations sid env.circ).1 = some wids →
        (decirculateStory sid env.decirc wids).1 = false →
        processStoryForDeletion sid env =
          (.failedAtDecirculation, ⟨wids.length, false, false, true⟩))
    ∧ (∀ wids, (getCirculations sid env.circ).1 = some wids →
        (decirculateStory sid env.decirc wids).1 = true →
        (unpublishStory sid env.unpub).1 = false →
        processStoryForDeletion sid env =
          (.failedAtUnpublish, ⟨wids.length, true, false, true⟩))
    ∧ ((processStoryForDeletion sid env).2.unpubCalled = true →
        ∃ wids, (getCirculations sid env.circ).1 = some wids ∧
          (decirculateStory sid env.decirc wids).1 = true)
    ∧ ((processStoryForDeletion sid env).2.delCalled = true →
        ∃ wids, (getCirculations sid env.circ).1 = some wids ∧
          (decirculateStory sid env.decirc wids).1 = true ∧
          (unpublishStory sid env.unpub).1 = true) := by
  refine ⟨?_, ?_, ?_, ?_, ?_⟩
  · intro hg
    simp only [processStoryForDeletion, hg]
  · intro wids hg hd
    simp only [processStoryForDeletion, hg]
    rw [if_pos hd]
  · intro wids hg hd hu
    simp only [processStoryForDeletion, hg]
    rw [if_neg (by simp [hd]), if_pos hu]
  · rcases hg : (getCirculations sid env.circ).1 with _ | wids
    · simp only [processStoryForDeletion, hg]
      intro hfalse
      exact absurd hfalse (by simp)
    · simp only [processStoryForDeletion, hg]
      split_ifs with h1 h2 h3 <;> intro hcalled
      · exact absurd hcalled (by simp)
      · exact ⟨wids, rfl, by simpa using h1⟩
      · exact ⟨wids, rfl, by simpa using h1⟩
      · exact ⟨wids, rfl, by simpa using h1⟩
  · rcases hg : (getCirculations sid env.circ).1 with _ | wids
    · simp only [processStoryForDeletion, hg]
      intro hfalse
      exact absurd hfalse (by simp)
    · simp only [processStoryForDeletion, hg]
      split_ifs with h1 h2 h3 <;> intro hcalled
      · exact absurd hcalled (by simp)
      · exact absurd hcalled (by simp)
      · exact ⟨wids, rfl, by simpa using h1, by simpa using h2⟩
      · exact ⟨wids, rfl, by simpa using h1, by simpa using h2⟩

/-- Witness for C1: four concrete environments — a fatal 401 on lookup,
a 403 on one website's decirculation, a 403 on unpublish, and a fully
successful run — exercise each clause. -/
theorem pipeline_stage_ordering_witness :
    processStoryForDeletion "s"
      ⟨fun _ => .resp ⟨401, none⟩, fun _ _ => .resp ⟨200, none⟩,
        fun _ => .resp ⟨200, none⟩, fun _ => .resp ⟨200, none⟩⟩ =
      (.failedAtCirculationLookup, ⟨0, false, false, true⟩)
    ∧ processStoryForDeletion "s"
      ⟨fun _ => .resp ⟨200,
          some (Json.arr [Json.obj [("website_id", Json.str "a")]])⟩,
        fun _ _ => .resp ⟨403, none⟩,
        fun _ => .resp ⟨200, none⟩, fun _ => .resp ⟨200, none⟩⟩ =
      (.failedAtDecirculation, ⟨1, false, false, true⟩)
    ∧ processStoryForDeletion "s"
      ⟨fun _ => .resp ⟨200, some (Json.arr [])⟩, fun _ _ => .resp ⟨200, none⟩,
        fun _ => .resp ⟨403, none⟩, fun _ => .resp ⟨200, none⟩⟩ =
      (.failedAtUnpublish, ⟨0, true, false, true⟩)
    ∧ (∃ wids, (getCirculations "s"
          (fun _ => .resp ⟨200, some (Json.arr [])⟩)).1 = some wids ∧
        (decirculateStory "s" (fun _ _ => .resp ⟨200, none⟩) wids).1 = true)
    ∧ (∃ wids, (getCirculations "s"
          (fun _ => .resp ⟨200, some (Json.arr [])⟩)).1 = some wids ∧
        (decirculateStory "s" (fun _ _ => .resp ⟨200, none⟩) wids).1 = true ∧
        (unpublishStory "s" (fun _ => .resp ⟨200, none⟩)).1 = true) := by
  refine ⟨?_, ?_, ?_, ?_, ?_⟩
  · exact (pipeline_stage_ordering "s" _).1 rfl
  · exact (pipeline_stage_ordering "s" _).2.1 [Json.str "a"] rfl rfl
  · exact (pipeline_stage_ordering "s" _).2.2.1 [] rfl rfl rfl
  · exact (pipeline_stage_ordering "s"
      ⟨fun _ => .resp ⟨200, some (Json.arr [])⟩, fun _ _ => .resp ⟨200, none⟩,
        fun _ => .resp ⟨200, none⟩, fun _ => .resp ⟨200, none⟩⟩).2.2.2.1 rfl
  · exact (pipeline_stage_ordering "s"
      ⟨fun _ => .resp ⟨200, some (Json.arr [])⟩, fun _ _ => .resp ⟨200, none⟩,
        fun _ => .resp ⟨200, none⟩, fun _ => .resp ⟨200, none⟩⟩).2.2.2.2 rfl

/-- C7: an identifier whose circulation lookup returns 404 and whose
unpublish and permanent-delete calls each return 404 runs the whole
pipeline to success — the lookup yields the empty circulation set,
decirculation trivially succeeds, both delete-type stages return
`True` — with no failure logged and each of the three calls made on a
single attempt (no retry). -/
theorem pipeline_idempotent_on_absent (sid : String) (env : PipeEnv)
    (r1 r2 r3 : Response)
    (h1 : env.circ 0 = .resp r1) (h1s : r1.status = 404)
    (h2 : env.unpub 0 = .resp r2) (h2s : r2.status = 404)
    (h3 : env.del 0 = .resp r3) (h3s : r3.status = 404) :
    getCirculations sid env.circ = (some [], 1)
    ∧ unpublishStory sid env.unpub = (true, 1)
    ∧ deleteStoryPermanently sid env.del = (true, 1)
    ∧ processStoryForDeletion sid env = (.success, ⟨0, true, true, false⟩) := by
  rcases r1 with ⟨s1, body1⟩
  rcases r2 with ⟨s2, body2⟩
  rcases r3 with ⟨s3, body3⟩
  simp only at h1s h2s h3s
  subst h1s h2s h3s
  have hp1 : makeRequestPure (circulationUrl sid) env.circ =
      (.ok ⟨404, body1⟩, 1) := by
    show requestLoopPure (circulationUrl sid) env.circ (7 + 1) 0 "Unknown" = _
    rw [requestLoopPure_succ, h1]
    norm_num [isServerError]
  have hp2 : makeRequestPure (publishedRevisionUrl sid) env.unpub =
      (.ok ⟨404, body2⟩, 1) := by
    show requestLoopPure (publishedRevisionUrl sid) env.unpub (7 + 1) 0 "Unknown" = _
    rw [requestLoopPure_succ, h2]
    norm_num [isServerError]
  have hp3 : makeRequestPure (storyUrl sid) env.del =
      (.ok ⟨404, body3⟩, 1) := by
    show requestLoopPure (storyUrl sid) env.del (7 + 1) 0 "Unknown" = _
    rw [requestLoopPure_succ, h3]
    norm_num [isServerError]
  have hg : getCirculations sid env.circ = (some [], 1) := by
    simp only [getCirculations, hp1]
    norm_num
  have hu : unpublishStory sid env.unpub = (true, 1) := by
    simp only [unpublishStory, hp2]
    norm_num
  have hd : deleteStoryPermanently sid env.del = (true, 1) := by
    simp only [deleteStoryPermanently, hp3]
    norm_num
  refine ⟨hg, hu, hd, ?_⟩
  simp only [processStoryForDeletion, hg]
  rw [if_neg (by simp [decirculateStory]), if_neg (by simp [hu]),
    if_neg (by simp [hd])]
  simp [decirculateStory]

/-- Witness for C7: the all-404 environment. -/
theorem pipeline_idempotent_on_absent_witness :
    getCirculations "s" (fun _ => .resp ⟨404, none⟩) = (some [], 1)
    ∧ unpublishStory "s" (fun _ => .resp ⟨404, none⟩) = (true, 1)
    ∧ deleteStoryPermanently "s" (fun _ => .resp ⟨404, none⟩) = (true, 1)
    ∧ processStoryForDeletion "s"
      ⟨fun _ => .resp ⟨404, none⟩, fun _ _ => .resp ⟨200, none⟩,
        fun _ => .resp ⟨404, none⟩, fun _ => .resp ⟨404, none⟩⟩ =
      (.success, ⟨0, true, true, false⟩) :=
  pipeline_idempotent_on_absent "s"
    ⟨fun _ => .resp ⟨404, none⟩, fun _ _ => .resp ⟨200, none⟩,
      fun _ => .resp ⟨404, none⟩, fun _ => .resp ⟨404, none⟩⟩
    ⟨404, none⟩ ⟨404, none⟩ ⟨404, none⟩ rfl rfl rfl rfl rfl rfl

/-! ## Body-shape normalization (C6) -/

/-- Counterexample to C6 as stated: the wrapper object
`{"payload": [{"website_id": "w1"}]}` has none of the recognized
wrapper keys and no top-level `website_id`, yet `get_circulations`
does not treat it as an empty circulation set — the fallback scan of
lines 212-216 picks up the list and yields `["w1"]`. -/
theorem circulation_normalization_cex :
    firstKeyList
      [("payload", Json.arr [Json.obj [("website_id", Json.str "w1")]])] = none
    ∧ jlookup
      [("payload", Json.arr [Json.obj [("website_id", Json.str "w1")]])]
      "website_id" = none
    ∧ websiteIdsOf (Json.obj
      [("payload", Json.arr [Json.obj [("website_id", Json.str "w1")]])]) =
      [Json.str "w1"]
    ∧ websiteIdsOf (Json.obj
      [("payload", Json.arr [Json.obj [("website_id", Json.str "w1")]])]) ≠
      ([] : List Json) := by
  refine ⟨rfl, rfl, rfl, ?_⟩
  intro h
  have h2 : ([Json.str "w1"] : List Json) = ([] : List Json) :=
    (show websiteIdsOf (Json.obj
      [("payload", Json.arr [Json.obj [("website_id", Json.str "w1")]])]) =
      [Json.str "w1"] from rfl).symm.trans h
  exact List.noConfusion h2

/-- C6 as amended: a 200 response with any parseable body always
yields a circulation list (the lookup never fails on body shape, and
makes a single attempt); a bare list is used as-is; a dict with a
recognized wrapper key holding a list uses that list; a dict with no
such key but a truthy `website_id` becomes a one-record list; and a
dict with neither is scanned for the first value that is a non-empty
list headed by a dict — that list if found, else empty. -/
theorem circulation_normalization_amended :
    (∀ (sid : String) (oracle : Nat → AttemptResult) (r : Response)
      (data : Json),
      oracle 0 = .resp r → r.status = 200 → r.body = some data →
      getCirculations sid oracle = (some (websiteIdsOf data), 1))
    ∧ (∀ xs, circulationList (Json.arr xs) = xs)
    ∧ (∀ fs xs, firstKeyList fs = some xs →
        circulationList (Json.obj fs) = xs)
    ∧ (∀ fs, firstKeyList fs = none →
        truthyOpt (jlookup fs "website_id") = true →
        circulationList (Json.obj fs) = [Json.obj fs])
    ∧ (∀ fs, firstKeyList fs = none →
        truthyOpt (jlookup fs "website_id") = false →
        circulationList (Json.obj fs) =
          (firstDictList (fs.map (fun p => p.2))).getD []) := by
  refine ⟨?_, ?_, ?_, ?_, ?_⟩
  · intro sid oracle r data ho hs hb
    rcases r with ⟨s, body⟩
    simp only at hs hb
    subst hs hb
    have hp : makeRequestPure (circulationUrl sid) oracle =
        (.ok ⟨200, some data⟩, 1) := by
      show requestLoopPure (circulationUrl sid) oracle (7 + 1) 0 "Unknown" = _
      rw [requestLoopPure_succ, ho]
      norm_num [isServerError]
    simp only [getCirculations, hp]
    norm_num [isHttpError]
  · intro xs; rfl
  · intro fs xs h
    simp only [circulationList, normalizeCirculations, h]
  · intro fs h ht
    simp only [circulationList, normalizeCirculations, h, ht, if_true]
  · intro fs h ht
    rcases hfd : firstDictList (fs.map (fun p => p.2)) with _ | xs <;>
      simp [circulationList, normalizeCirculations, h, ht, hfd]

/-- Witness for C6's amended claim: an empty-list body succeeds with an
empty circulation set, and the fallback-scan case evaluates on the
counterexample object. -/
theorem circulation_normalization_amended_witness :
    getCirculations "s" (fun _ => .resp ⟨200, some (Json.arr [])⟩) =
      (some [], 1)
    ∧ circulationList (Json.obj
        [("payload", Json.arr [Json.obj [("website_id", Json.str "w1")]])]) =
      (firstDictList
        ([("payload", Json.arr [Json.obj [("website_id", Json.str "w1")]])].map
          (fun p => p.2))).getD [] :=
  ⟨circulation_normalization_amended.1 "s"
      (fun _ => .resp ⟨200, some (Json.arr [])⟩) ⟨200, some (Json.arr [])⟩
      (Json.arr []) rfl rfl rfl,
   circulation_normalization_amended.2.2.2.2
      [("payload", Json.arr [Json.obj [("website_id", Json.str "w1")]])]
      rfl rfl⟩

/-! ## The final summary (C8) -/

/-- Counterexample to C8 as stated: two runs whose outcome tallies
differ (one success versus one decirculation failure) produce exactly
the same final summary, so the summary cannot report how many
identifiers ended in each outcome — the scheduler only counts
completed futures and timing, because `process_story_for_deletion`
returns `None` on every path. -/
theorem run_summary_no_tally_cex :
    mainSummary [PipelineOutcome.success] 2 =
      mainSummary [PipelineOutcome.failedAtDecirculation] 2
    ∧ List.count PipelineOutcome.failedAtDecirculation
        [PipelineOutcome.success] ≠
      List.count PipelineOutcome.failedAtDecirculation
        [PipelineOutcome.failedAtDecirculation] :=
  ⟨rfl, by decide⟩

/-- C8 as amended: the run always completes with a final summary — the
number of identifiers processed plus elapsed time and average rate —
which depends only on how many identifiers there were, not on their
outcomes (no per-outcome tally exists); per-identifier failures are
still logged individually: a failure line is printed exactly when the
identifier did not end in Success. -/
theorem run_summary_amended :
    (∀ (o1 o2 : List PipelineOutcome) (t : ℚ), o1.length = o2.length →
      mainSummary o1 t = mainSummary o2 t)
    ∧ (∀ (o : List PipelineOutcome) (t : ℚ),
      (mainSummary o t).processed = o.length)
    ∧ (∀ (sid : String) (env : PipeEnv),
      (processStoryForDeletion sid env).2.failureLogged = true ↔
        (processStoryForDeletion sid env).1 ≠ PipelineOutcome.success) := by
  refine ⟨?_, ?_, ?_⟩
  · intro o1 o2 t h
    simp [mainSummary, h]
  · intro o t; rfl
  · intro sid env
    rcases hg : (getCirculations sid env.circ).1 with _ | wids
    · simp [processStoryForDeletion, hg]
    · simp only [processStoryForDeletion, hg]
      split_ifs with h1 h2 h3 <;> simp

/-- Witness for C8's amended claim: equal-length outcome lists with
different outcomes give the same summary, and the all-404 success run
logs no failure line. -/
theorem run_summary_amended_witness :
    mainSummary [PipelineOutcome.success] 3 =
      mainSummary [PipelineOutcome.failedAtUnpublish] 3
    ∧ (mainSummary [PipelineOutcome.success] 3).processed = 1
    ∧ ((processStoryForDeletion "s"
        ⟨fun _ => .resp ⟨404, none⟩, fun _ _ => .resp ⟨200, none⟩,
          fun _ => .resp ⟨404, none⟩, fun _ => .resp ⟨404, none⟩⟩).2.failureLogged
          = true ↔
      (processStoryForDeletion "s"
        ⟨fun _ => .resp ⟨404, none⟩, fun _ _ => .resp ⟨200, none⟩,
          fun _ => .resp ⟨404, none⟩, fun _ => .resp ⟨404, none⟩⟩).1 ≠
        PipelineOutcome.success) :=
  ⟨run_summary_amended.1 [PipelineOutcome.success]
      [PipelineOutcome.failedAtUnpublish] 3 rfl,
   run_summary_amended.2.1 [PipelineOutcome.success] 3,
   run_summary_amended.2.2 "s" _⟩

/-! ## CSV header auto-detection (C9) -/

lemma length_filterMap_of_isSome {α β : Type} (f : α → Option β) :
    ∀ l : List α, (∀ a ∈ l, (f a).isSome = true) →
    (l.filterMap f).length = l.length := by
  intro l
  induction l with
  | nil => intro _; rfl
  | cons x xs ih =>
    intro h
    rw [List.filterMap_cons]
    rcases hf : f x with _ | b
    · have hx := h x (List.mem_cons_self x xs)
      rw [hf] at hx
      exact absurd hx (by simp)
    · simp only [List.length_cons]
      rw [← ih (fun a ha => h a (List.mem_cons_of_mem x ha))]

/-- C9: header auto-detection of `load_rows_from_csv` — when the first
line's first field (stripped) is a 26-character alphanumeric
identifier, no header row is skipped and, provided every line's first
field is non-empty, the row count equals the line count; when the
first field does not have that shape, the first line is consumed as a
header and, provided every data row has a truthy identifier under
`story_id`/`id`/`_id`, the row count equals the line count minus 1. -/
theorem csv_header_detection :
    (∀ (g : Option String) (first : List String) (rest : List (List String)),
      isIdShape (pyStrip (first.headD "")) = true →
      (∀ row ∈ first :: rest, (((pyStrip (row.headD "")) == "") = false)) →
      (loadRowsFromCsv g (first :: rest)).length = (first :: rest).length)
    ∧ (∀ (g : Option String) (first : List String) (rest : List (List String)),
      isIdShape (pyStrip (first.headD "")) = false →
      (∀ row ∈ rest, truthyStr (headerRowId first row) = true) →
      (loadRowsFromCsv g (first :: rest)).length = rest.length) := by
  constructor
  · intro g first rest hshape hrows
    simp only [loadRowsFromCsv]
    rw [if_pos hshape]
    apply length_filterMap_of_isSome
    intro row hr
    have hrow : pyStrip (row.head?.getD "") ≠ "" := by
      simpa using hrows row hr
    simp [hrow]
  · intro g first rest hshape hrows
    simp only [loadRowsFromCsv]
    rw [if_neg (by intro h; rw [hshape] at h; exact Bool.noConfusion h)]
    apply length_filterMap_of_isSome
    intro row hr
    have hrow := hrows row hr
    simp [hrow]

/-- Witness for C9: a file with header `story_id,publish_date,url` and
one data row parses to 1 row; a headerless file whose first line
starts with a 26-character alphanumeric id parses to 2 rows. -/
theorem csv_header_detection_witness :
    (loadRowsFromCsv none
      [["abcdefghij0123456789abcdef", "2020-01-01", "u1"],
       ["ABCDEFGHIJ0123456789ABCDEF", "2020-01-02", "u2"]]).length = 2
    ∧ (loadRowsFromCsv none
      [["story_id", "publish_date", "url"],
       ["x1", "2020-01-01", "u1"]]).length = 1 :=
  ⟨csv_header_detection.1 none ["abcdefghij0123456789abcdef", "2020-01-01", "u1"]
      [["ABCDEFGHIJ0123456789ABCDEF", "2020-01-02", "u2"]]
      (by decide) (by decide),
   csv_header_detection.2 none ["story_id", "publish_date", "url"]
      [["x1", "2020-01-01", "u1"]]
      (by decide) (by decide)⟩

/-! ## The `--limit` cap (C10) -/

/-- C10: `--limit n` with `n > 0` keeps exactly the first
`min(n, length)` identifiers in list order, while `--limit 0` is
silently ignored — the whole list is dispatched, not zero
identifiers. -/
theorem limit_cap_semantics :
    (∀ (xs : List String) (n : Int), 0 < n →
      applyLimit (some n) xs = xs.take n.toNat
      ∧ (applyLimit (some n) xs).length = min n.toNat xs.length)
    ∧ (∀ xs : List String, applyLimit (some 0) xs = xs) := by
  constructor
  · intro xs n hn
    have hne : (n == 0) = false := by
      simp [hn.ne']
    have h1 : applyLimit (some n) xs = xs.take n.toNat := by
      simp only [applyLimit, hne, Bool.false_eq_true, if_false, pySliceTo,
        if_pos (le_of_lt hn)]
    exact ⟨h1, by rw [h1, List.length_take]⟩
  · intro xs
    rfl

/-- Witness for C10 on a three-element list with caps 2 and 0. -/
theorem limit_cap_semantics_witness :
    (applyLimit (some 2) ["a", "b", "c"] =
      (["a", "b", "c"] : List String).take ((2 : Int)).toNat
    ∧ (applyLimit (some 2) ["a", "b", "c"]).length =
      min ((2 : Int)).toNat (["a", "b", "c"] : List String).length)
    ∧ applyLimit (some 0) ["a", "b", "c"] = ["a", "b", "c"] :=
  ⟨limit_cap_semantics.1 ["a", "b", "c"] 2 (by norm_num),
   limit_cap_semantics.2 ["a", "b", "c"]⟩

end PipelineNotas
